import Mathlib

/-!
Shallow embedding of the Lohpi directory-server core and its cache-backed
registries, translated from the Go sources:

  * core/directoryserver/directoryservercore.go
  * core/datasetmanager/datasetlookupservice.go
  * core/membershipmanager/database.go

Machine-level concerns (protobuf wire format, ECDSA arithmetic, SQL engine,
Redis transport) are abstracted: byte payloads are modelled as already-decoded
message values, the crypto verdict of `ifritClient.VerifySignature` is carried
as a boolean field of the envelope, and the relational tables / Redis keyspace
are association lists with explicit failure flags for the connections.
-/

namespace Lohpi

/-- Association-list lookup (models a keyed SELECT / Redis GET). -/
def lookupKV {α : Type} : List (String × α) → String → Option α
  | [], _ => none
  | (k0, v0) :: rest, k => if k0 = k then some v0 else lookupKV rest k

/-- Association-list upsert (models Redis SET and SQL last-writer-wins insert:
replaces the binding when the key is present, appends otherwise). -/
def upsertKV {α : Type} : List (String × α) → String → α → List (String × α)
  | [], k, v => [(k, v)]
  | (k0, v0) :: rest, k, v =>
    if k0 = k then (k, v) :: rest else (k0, v0) :: upsertKV rest k v

/-- pb.Node: identity record of a network participant. -/
structure PBNode where
  name : String
  ifritAddress : String
  id : String
  httpsAddress : String
  port : Int
  bootTime : Nat
  deriving Repr, DecidableEq

/-- pb.Policy: opaque dataset identifier plus a decision flag. -/
structure Policy where
  datasetIdentifier : String
  decision : Bool
  deriving Repr, DecidableEq

/-- One element of a gossip message body; its policy pointer may be nil. -/
structure GossipMessageBodyEntry where
  policy : Option Policy
  deriving Repr, DecidableEq

/-- pb.GossipMessage: identifier plus an optional body of policy entries. -/
structure GossipMessage where
  gossipMessageID : String
  gossipMessageBody : Option (List GossipMessageBodyEntry)
  deriving Repr, DecidableEq

/-- The message types consumed or produced by the directory server core. -/
inductive MsgType where
  | addDatasetIdentifier
  | synchronizeDatasetIdentifiers
  | ok
  | rollbackCheckout
  | probe
  | policyStoreUpdate
  | other (s : String)
  deriving Repr, DecidableEq

/-- pb.MsgSignature: the two components of an ECDSA signature. -/
structure MsgSignature where
  r : String
  s : String
  deriving Repr, DecidableEq

/-- pb.Message: the envelope handled by the direct and gossip handlers.
`sigValid` abstracts the verdict `ifritClient.VerifySignature` would give for
this envelope against the sender's declared identity (true iff the payload
bytes are exactly the signed ones). -/
structure Message where
  type : MsgType
  sender : Option PBNode
  stringValue : String
  stringSlice : Option (List String)
  gossipMessage : Option GossipMessage
  signature : Option MsgSignature
  sigValid : Bool
  deriving Repr, DecidableEq

/-- Protobuf getter semantics: GetName on a possibly-nil node. -/
def getName : Option PBNode → String
  | none => ""
  | some n => n.name

/-- Error outcomes of the embedded operations, one constructor per distinct
error value produced by the Go code (messages elided). -/
inductive CoreErr where
  | unmarshalFailed
  | datasetLookupInsert
  | unknownMessageType
  | newIdentifiersNil
  | nodeNil
  | messageNil
  | gossipMessageNil
  | gossipBodyNil
  | policyNil
  | observedInsertNil
  | invalidArgument
  | noNodeId
  | nilNode
  | execFailed
  | deleteFailed
  | storeInsertFailed
  | cacheFailed
  deriving Repr, DecidableEq

/-- In-process state of the DirectoryServerCore that the handlers touch.
`dsLookup` is the dataset lookup table (dataset identifier to owning node
name), `dsInsertFails` is the failure oracle of the lookup-service insert,
`observedGossip` is the gossip observation ledger, `checkedOut` the set of
checked-out dataset identifiers. `applyPolicyCalls` is a ghost log recording
each invocation of `applyPolicy` in order, used to state idempotence and
continue-on-error properties. -/
structure DirectoryState where
  dsLookup : List (String × String)
  dsInsertFails : Bool
  observedGossip : List String
  applyPolicyCalls : List (Option Policy)
  checkedOut : List String
  deriving Repr, DecidableEq

/-- verifyMessageSignature of directoryservercore.go. The source begins with
an unconditional `return nil`; the signature-checking code below that line is
unreachable, so the embedded function reports success for every message. -/
def verifyMessageSignature (_msg : Message) : Option CoreErr :=
  none

/-- Modelled from the spec: the lookup-service adapter behind the
`InsertDatasetLookupEntry` interface method, whose implementation file is not
in the sources; per the spec it performs a last-writer-wins insert of
(dataset identifier, owning node name) and reports store failures. -/
def InsertDatasetLookupEntry (st : DirectoryState) (datasetId nodeName : String) :
    Option CoreErr × DirectoryState :=
  if st.dsInsertFails then
    (some CoreErr.storeInsertFailed, st)
  else
    (none, { st with dsLookup := upsertKV st.dsLookup datasetId nodeName })

/-- resolveDatasetIdentifiersDeltas of directoryservercore.go: after the two
nil checks the entire reconciliation algorithm is commented out in the source,
so the function returns success without touching the lookup table. -/
def resolveDatasetIdentifiersDeltas (st : DirectoryState)
    (newIdentifiers : Option (List String)) (node : Option PBNode) :
    Option CoreErr × DirectoryState :=
  match newIdentifiers with
  | none => (some CoreErr.newIdentifiersNil, st)
  | some _ =>
    match node with
    | none => (some CoreErr.nodeNil, st)
    | some _ => (none, st)

/-- The acknowledgement envelope messageHandler marshals on success:
`pb.Message{Type: message.MSG_TYPE_OK}` — every other field, the signature
included, is left at its zero value. -/
def okAck : Message :=
  { type := MsgType.ok
    sender := none
    stringValue := ""
    stringSlice := none
    gossipMessage := none
    signature := none
    sigValid := false }

/-- messageHandler of directoryservercore.go. The raw-bytes argument is
modelled as an already-decoded optional message (`none` stands for bytes that
fail to unmarshal). -/
def messageHandler (st : DirectoryState) (data : Option Message) :
    Except CoreErr Message × DirectoryState :=
  match data with
  | none => (Except.error CoreErr.unmarshalFailed, st)
  | some msg =>
    match verifyMessageSignature msg with
    | some e => (Except.error e, st)
    | none =>
      match msg.type with
      | MsgType.addDatasetIdentifier =>
        match InsertDatasetLookupEntry st msg.stringValue (getName msg.sender) with
        | (some _, st1) => (Except.error CoreErr.datasetLookupInsert, st1)
        | (none, st1) => (Except.ok okAck, st1)
      | MsgType.synchronizeDatasetIdentifiers =>
        match resolveDatasetIdentifiersDeltas st msg.stringSlice msg.sender with
        | (some e, st1) => (Except.error e, st1)
        | (none, st1) => (Except.ok okAck, st1)
      | _ => (Except.error CoreErr.unknownMessageType, st)

/-- Modelled from the spec: InsertObservedGossip of the gossip observation
ledger, whose implementation file is not in the sources; per the spec it
records the message's unique identifier (a nil gossip message is an error). -/
def InsertObservedGossip (st : DirectoryState) (g : Option GossipMessage) :
    Option CoreErr × DirectoryState :=
  match g with
  | none => (some CoreErr.observedInsertNil, st)
  | some gm =>
    if gm.gossipMessageID ∈ st.observedGossip then
      (none, st)
    else
      (none, { st with observedGossip := st.observedGossip ++ [gm.gossipMessageID] })

/-- Modelled from the spec: GossipIsObserved of the gossip observation ledger,
whose implementation file is not in the sources; per the spec it tests whether
the message's identifier has been recorded. -/
def GossipIsObserved (st : DirectoryState) (g : Option GossipMessage) : Bool :=
  match g with
  | none => false
  | some gm => st.observedGossip.contains gm.gossipMessageID

/-- DatasetIsCheckedOut as seen through the checkout-manager interface. -/
def DatasetIsCheckedOut (st : DirectoryState) (datasetId : String) : Bool :=
  st.checkedOut.contains datasetId

/-- applyPolicy of directoryservercore.go: a nil policy is an error; otherwise
the checked-out test guards only a commented-out publish, so the call has no
observable effect. Every invocation is recorded in the ghost log. -/
def applyPolicy (st : DirectoryState) (p : Option Policy) :
    Option CoreErr × DirectoryState :=
  let st1 := { st with applyPolicyCalls := st.applyPolicyCalls ++ [p] }
  match p with
  | none => (some CoreErr.policyNil, st1)
  | some _ => (none, st1)

/-- The loop body of processPolicyBatch: applyPolicy on every entry, a non-nil
error being logged and the iteration continuing. -/
def applyPolicies (st : DirectoryState) : List GossipMessageBodyEntry → DirectoryState
  | [] => st
  | e :: rest => applyPolicies (applyPolicy st e.policy).2 rest

/-- processPolicyBatch of directoryservercore.go. -/
def processPolicyBatch (st : DirectoryState) (m : Option Message) :
    Option CoreErr × DirectoryState :=
  match m with
  | none => (some CoreErr.messageNil, st)
  | some msg =>
    match msg.gossipMessage with
    | none => (some CoreErr.gossipMessageNil, st)
    | some g =>
      match g.gossipMessageBody with
      | none => (some CoreErr.gossipBodyNil, st)
      | some body => (none, applyPolicies st body)

/-- gossipMessageHandler of directoryservercore.go: a signature-verification
error is only logged (the return is commented out), every message is recorded
in the observation ledger (an error there is only logged), and only
POLICY_STORE_UPDATE messages reach processPolicyBatch — with no check of the
ledger before applying the payload. -/
def gossipMessageHandler (st : DirectoryState) (data : Option Message) :
    Option CoreErr × DirectoryState :=
  match data with
  | none => (some CoreErr.unmarshalFailed, st)
  | some msg =>
    let st1 := (InsertObservedGossip st msg.gossipMessage).2
    match msg.type with
    | MsgType.probe => (none, st1)
    | MsgType.policyStoreUpdate => processPolicyBatch st1 (some msg)
    | _ => (none, st1)

/-- State of a DatasetLookupService instance: the Redis cache (presence of a
client, a connection-failure flag for its commands, and its keyspace) and the
PostgreSQL lookup table with its own failure flag. -/
structure LookupState where
  cacheEnabled : Bool
  cacheErr : Bool
  cache : List (String × PBNode)
  storeErr : Bool
  store : List (String × PBNode)
  deriving Repr, DecidableEq

/-- cacheDatasetNodeExists of datasetlookupservice.go: Redis EXISTS; the first
component is the answer, the second reports a command error (in which case the
answer is false). -/
def cacheDatasetNodeExists (st : LookupState) (datasetId : String) : Bool × Bool :=
  if st.cacheErr then (false, true)
  else ((lookupKV st.cache datasetId).isSome, false)

/-- Modelled from the spec: dbDatasetNodeExists, the persistent-store
existence query, whose database file is not in the sources; per the spec it
answers membership in the authoritative lookup table. -/
def dbDatasetNodeExists (st : LookupState) (datasetId : String) : Bool :=
  (lookupKV st.store datasetId).isSome

/-- Modelled from the spec: dbSelectDatasetNode, the persistent-store read of
the owning node, whose database file is not in the sources. -/
def dbSelectDatasetNode (st : LookupState) (datasetId : String) : Option PBNode :=
  lookupKV st.store datasetId

/-- DatasetNodeExists of datasetlookupservice.go: empty identifiers are
rejected; the cache is consulted first when a Redis client exists, a hit
returning immediately; a miss or cache error falls through to the store, and a
store hit repopulates the Redis entry (the repopulating SET failing is only
logged). Protobuf marshalling of the node is modelled as always succeeding. -/
def DatasetNodeExists (st : LookupState) (datasetId : String) : Bool × LookupState :=
  if datasetId = "" then (false, st)
  else
    let hit :=
      if st.cacheEnabled then
        let r := cacheDatasetNodeExists st datasetId
        r.1 && !r.2
      else false
    if hit then (true, st)
    else
      let ex := dbDatasetNodeExists st datasetId
      if ex && st.cacheEnabled then
        match dbSelectDatasetNode st datasetId with
        | some node =>
          if st.cacheErr then (ex, st)
          else (ex, { st with cache := upsertKV st.cache datasetId node })
        | none => (ex, st)
      else (ex, st)

/-- cacheInsertDatasetNode of datasetlookupservice.go: Redis SET of the
marshalled node (marshalling modelled as always succeeding). -/
def cacheInsertDatasetNode (st : LookupState) (datasetId : String) (node : PBNode) :
    Option CoreErr × LookupState :=
  if st.cacheErr then (some CoreErr.cacheFailed, st)
  else (none, { st with cache := upsertKV st.cache datasetId node })

/-- Modelled from the spec: dbInsertDatasetNode, the authoritative
persistent-store write, whose database file is not in the sources; per the
spec its error is returned to the caller and it upserts the entry. -/
def dbInsertDatasetNode (st : LookupState) (datasetId : String) (node : PBNode) :
    Option CoreErr × LookupState :=
  if st.storeErr then (some CoreErr.storeInsertFailed, st)
  else (none, { st with store := upsertKV st.store datasetId node })

/-- InsertDatasetNode of datasetlookupservice.go: the cache write is attempted
first when a Redis client exists and its failure is only logged; the result of
the authoritative store write is returned. -/
def InsertDatasetNode (st : LookupState) (datasetId : String) (node : PBNode) :
    Option CoreErr × LookupState :=
  let st1 :=
    if st.cacheEnabled then (cacheInsertDatasetNode st datasetId node).2
    else st
  dbInsertDatasetNode st1 datasetId node

/-- One row of the storage-node table of membershipmanager/database.go:
(node_name, ip_address, public_id, https_address, port, boottime). -/
structure NodeRow where
  nodeName : String
  ipAddress : String
  publicId : String
  httpsAddress : String
  port : Int
  boottime : String
  deriving Repr, DecidableEq

/-- RFC1123Z formatting of the boot timestamp, modelled as an injective
rendering of the abstract time value. -/
def formatRFC1123Z (t : Nat) : String :=
  toString t

/-- The row dbInsertNetworkNode binds: the node_name column receives the
nodeId parameter, the remaining columns the node's fields. -/
def nodeRowOf (nodeId : String) (n : PBNode) : NodeRow :=
  { nodeName := nodeId
    ipAddress := n.ifritAddress
    publicId := n.id
    httpsAddress := n.httpsAddress
    port := n.port
    boottime := formatRFC1123Z n.bootTime }

/-- State of the membership database: the storage-node table plus a failure
flag for the connection pool's Exec. -/
structure MembershipDB where
  rows : List NodeRow
  execErr : Bool
  deriving Repr, DecidableEq

/-- Whether some row of the table bears the given node_name. -/
def hasName : List NodeRow → String → Bool
  | [], _ => false
  | x :: rest, name => if x.nodeName = name then true else hasName rest name

/-- The rows of the table bearing the given node_name, in table order
(the result set of a SELECT ... WHERE node_name = $1). -/
def rowsForName : List NodeRow → String → List NodeRow
  | [], _ => []
  | x :: rest, name =>
    if x.nodeName = name then x :: rowsForName rest name else rowsForName rest name

/-- The table with every row of the given node_name removed (the effect of
DELETE ... WHERE node_name = $1). -/
def removeName : List NodeRow → String → List NodeRow
  | [], _ => []
  | x :: rest, name =>
    if x.nodeName = name then removeName rest name else x :: removeName rest name

/-- The INSERT ... ON CONFLICT (node_name) DO UPDATE statement of
dbInsertNetworkNode: under the table's uniqueness constraint it updates every
row whose node_name matches, and appends the row when none does. -/
def upsertRow (rows : List NodeRow) (r : NodeRow) : List NodeRow :=
  if hasName rows r.nodeName then
    rows.map (fun x => if x.nodeName = r.nodeName then r else x)
  else rows ++ [r]

/-- dbInsertNetworkNode of membershipmanager/database.go. -/
def dbInsertNetworkNode (db : MembershipDB) (nodeId : String) (node : Option PBNode) :
    Option CoreErr × MembershipDB :=
  if nodeId = "" then (some CoreErr.noNodeId, db)
  else
    match node with
    | none => (some CoreErr.nilNode, db)
    | some n =>
      if db.execErr then (some CoreErr.execFailed, db)
      else (none, { db with rows := upsertRow db.rows (nodeRowOf nodeId n) })

/-- dbDeleteNetworkNode of membershipmanager/database.go: the DELETE removes
every row whose node_name matches, and a command tag reporting anything but
exactly one affected row is an error. -/
def dbDeleteNetworkNode (db : MembershipDB) (nodeId : String) :
    Option CoreErr × MembershipDB :=
  if nodeId = "" then (some CoreErr.noNodeId, db)
  else if db.execErr then (some CoreErr.execFailed, db)
  else
    let affected := (rowsForName db.rows nodeId).length
    let db1 := { db with rows := removeName db.rows nodeId }
    if affected ≠ 1 then (some CoreErr.deleteFailed, db1)
    else (none, db1)

/-- Modelled from the spec: AddNetworkNode of the membership manager, whose
implementation file is not in the sources; per the spec it registers the node
with upsert semantics by writing through to the persistent store
(dbInsertNetworkNode), the best-effort cache write having no effect on the
stored record. -/
def AddNetworkNode (db : MembershipDB) (nodeId : String) (node : Option PBNode) :
    Option CoreErr × MembershipDB :=
  dbInsertNetworkNode db nodeId node

/-- Configuration the Handshake response is built from. -/
structure DirConfig where
  hostname : String
  ifritTCPPort : Int
  serverId : String
  deriving Repr, DecidableEq

/-- pb.HandshakeResponse. -/
structure HandshakeResponse where
  ip : String
  id : String
  deriving Repr, DecidableEq

/-- Handshake of directoryservercore.go: a nil node is InvalidArgument,
otherwise the node is registered under its own name via AddNetworkNode and
the coordinator's address and identity are returned. -/
def Handshake (cfg : DirConfig) (db : MembershipDB) (node : Option PBNode) :
    Except CoreErr HandshakeResponse × MembershipDB :=
  match node with
  | none => (Except.error CoreErr.invalidArgument, db)
  | some n =>
    match AddNetworkNode db n.name (some n) with
    | (some e, db1) => (Except.error e, db1)
    | (none, db1) =>
      (Except.ok
        { ip := cfg.hostname ++ ":" ++ toString cfg.ifritTCPPort
          id := cfg.serverId }, db1)

/-! Concrete fixtures used by the evaluation theorems. -/

/-- A storage node N. -/
def nodeN : PBNode :=
  { name := "N"
    ifritAddress := "10.0.0.7:5000"
    id := "idN"
    httpsAddress := "10.0.0.7:443"
    port := 443
    bootTime := 100 }

/-- Directory-server state with an empty lookup table, a working lookup
service, and nothing observed or checked out. -/
def emptyDirState : DirectoryState :=
  { dsLookup := []
    dsInsertFails := false
    observedGossip := []
    applyPolicyCalls := []
    checkedOut := [] }

/-- An add-dataset-identifier message from N whose payload bytes were changed
after signing: the carried signature does not verify against N's identity. -/
def tamperedAddMsg : Message :=
  { type := MsgType.addDatasetIdentifier
    sender := some nodeN
    stringValue := "d1"
    stringSlice := none
    gossipMessage := none
    signature := some { r := "r0", s := "s0" }
    sigValid := false }

/-- The same add-dataset-identifier message with an intact signature. -/
def validAddMsg : Message :=
  { tamperedAddMsg with sigValid := true }

/-- A policy for dataset d1. -/
def policyA : Policy :=
  { datasetIdentifier := "d1", decision := true }

/-- A gossip policy batch with identifier g1 carrying the single policy
`policyA`. -/
def gossipG1 : GossipMessage :=
  { gossipMessageID := "g1"
    gossipMessageBody := some [{ policy := some policyA }] }

/-- The POLICY_STORE_UPDATE envelope carrying `gossipG1`. -/
def policyUpdateMsg : Message :=
  { type := MsgType.policyStoreUpdate
    sender := some nodeN
    stringValue := ""
    stringSlice := none
    gossipMessage := some gossipG1
    signature := some { r := "r1", s := "s1" }
    sigValid := true }

/-- Directory-server state whose lookup table holds a→N, b→N, c→N and the
stale entry x→N. -/
def staleDirState : DirectoryState :=
  { emptyDirState with dsLookup := [("a", "N"), ("b", "N"), ("c", "N"), ("x", "N")] }

/-- A synchronize-dataset-identifiers message from N advertising the full
identifier set a, b, c. -/
def syncMsg : Message :=
  { type := MsgType.synchronizeDatasetIdentifiers
    sender := some nodeN
    stringValue := ""
    stringSlice := some ["a", "b", "c"]
    gossipMessage := none
    signature := some { r := "r2", s := "s2" }
    sigValid := true }

/-! Claim theorems. -/

/-- C1: evaluation at the failing input. The claim states that a direct
message whose signature does not verify is answered with an authentication
error, is never dispatched, and leaves the store state unchanged. In the code
verifyMessageSignature returns nil unconditionally (its checking code is
unreachable), so the tampered add-dataset-identifier message from N is
dispatched anyway: the handler returns the OK acknowledgement and the dataset
lookup table gains the entry d1→N. -/
theorem tampered_message_still_dispatched :
    (messageHandler emptyDirState (some tamperedAddMsg)).1 = Except.ok okAck ∧
    (messageHandler emptyDirState (some tamperedAddMsg)).2.dsLookup = [("d1", "N")] :=
  ⟨rfl, rfl⟩

/-- C2: evaluation at the failing input. The claim states that delivering the
same gossip policy batch twice invokes applyPolicy exactly once for its
contained policy, the second delivery being discarded. The code records the
observation (GossipIsObserved is true after the first delivery) but never
consults the ledger before applying the payload — the dismissal check is
commented out — so after the second delivery of g1 applyPolicy has been
invoked twice for the single contained policy. -/
theorem duplicate_gossip_reapplies_policies :
    GossipIsObserved (gossipMessageHandler emptyDirState (some policyUpdateMsg)).2
      (some gossipG1) = true ∧
    (gossipMessageHandler emptyDirState (some policyUpdateMsg)).2.applyPolicyCalls
      = [some policyA] ∧
    (gossipMessageHandler
        (gossipMessageHandler emptyDirState (some policyUpdateMsg)).2
        (some policyUpdateMsg)).2.applyPolicyCalls
      = [some policyA, some policyA] :=
  ⟨rfl, rfl, rfl⟩

/-- C3: evaluation at the failing input. The claim states that a
synchronize-dataset-identifiers message from N advertising the set a, b, c
removes the stale entry x→N and keeps a→N, b→N, c→N. The reconciliation body
of resolveDatasetIdentifiersDeltas is entirely commented out in the code, so
the handler acknowledges the message while the lookup table — the stale entry
x→N included — is left exactly as it was. -/
theorem sync_identifiers_removes_nothing :
    (messageHandler staleDirState (some syncMsg)).1 = Except.ok okAck ∧
    (messageHandler staleDirState (some syncMsg)).2.dsLookup
      = [("a", "N"), ("b", "N"), ("c", "N"), ("x", "N")] :=
  ⟨rfl, rfl⟩

/-- C4 counterexample: the claim states that the acknowledgement returned for
a successfully processed direct message carries a signature produced with the
node's identity key. At the concrete valid add-dataset-identifier message the
handler succeeds and its response envelope is `pb.Message{Type: MSG_TYPE_OK}`
with no signature attached at all. -/
theorem ok_ack_unsigned_at_valid_add :
    (messageHandler emptyDirState (some validAddMsg)).1 = Except.ok okAck ∧
    ¬ (okAck.signature ≠ none) :=
  ⟨rfl, fun h => h rfl⟩

/-- C4 (amended): every direct message that messageHandler processes
successfully is answered with an OK-typed message envelope that carries no
signature — the acknowledgement is sent unsigned. -/
theorem messageHandler_ack_ok_unsigned (st : DirectoryState) (data : Option Message)
    (r : Message) (st1 : DirectoryState)
    (h : messageHandler st data = (Except.ok r, st1)) :
    r.type = MsgType.ok ∧ r.signature = none := by
  match data with
  | none => simp [messageHandler] at h
  | some msg =>
    simp only [messageHandler, verifyMessageSignature] at h
    split at h
    · split at h
      · injection h with h1 h2
        injection h1
      · injection h with h1 h2
        injection h1 with h3
        rw [← h3]
        exact ⟨rfl, rfl⟩
    · split at h
      · injection h with h1 h2
        injection h1
      · injection h with h1 h2
        injection h1 with h3
        rw [← h3]
        exact ⟨rfl, rfl⟩
    · injection h with h1 h2
      injection h1

/-- C4 witness: the amended theorem applied to the concrete valid
add-dataset-identifier message. -/
theorem messageHandler_ack_ok_unsigned_witness :
    okAck.type = MsgType.ok ∧ okAck.signature = none :=
  messageHandler_ack_ok_unsigned emptyDirState (some validAddMsg) okAck
    { emptyDirState with dsLookup := [("d1", "N")] } rfl

/-- C10: DatasetNodeExists applied to the empty dataset identifier returns
false and leaves the service state untouched, for every state — in particular
it neither consults nor repairs the cache or the store even when they hold an
entry for the empty key, and no error reaches the caller. -/
theorem datasetNodeExists_empty_id_false (st : LookupState) :
    DatasetNodeExists st "" = (false, st) := by
  simp [DatasetNodeExists]

/-- Looking up a key right after upserting it yields the upserted value. -/
theorem lookupKV_upsert_self {α : Type} (l : List (String × α)) (k : String) (v : α) :
    lookupKV (upsertKV l k v) k = some v := by
  induction l with
  | nil => simp [upsertKV, lookupKV]
  | cons kv rest ih =>
    by_cases hk : kv.1 = k
    · simp [upsertKV, hk, lookupKV]
    · simp [upsertKV, hk, lookupKV, ih]

/-- The condition under which DatasetNodeExists answers from the cache tier:
a Redis client exists, its command succeeds, and the key is present. -/
def cacheHitB (st : LookupState) (datasetId : String) : Bool :=
  st.cacheEnabled && !st.cacheErr && (lookupKV st.cache datasetId).isSome

/-- C5: for a non-empty dataset identifier, DatasetNodeExists answers true
immediately (state untouched) on a cache hit; on a cache miss or cache error
it falls through and its boolean answer equals the persistent store's answer
(so a cache error is never surfaced); and when the fallthrough finds the key
in the store while the cache is reachable, the cache entry is repopulated with
the store's node before returning. -/
theorem datasetNodeExists_cache_fallthrough (st : LookupState) (datasetId : String)
    (hk : datasetId ≠ "") :
    (cacheHitB st datasetId = true → DatasetNodeExists st datasetId = (true, st)) ∧
    (cacheHitB st datasetId = false →
      (DatasetNodeExists st datasetId).1 = dbDatasetNodeExists st datasetId) ∧
    (cacheHitB st datasetId = false → dbDatasetNodeExists st datasetId = true →
      st.cacheEnabled = true → st.cacheErr = false →
      lookupKV (DatasetNodeExists st datasetId).2.cache datasetId
        = dbSelectDatasetNode st datasetId) := by
  obtain ⟨ce, cerr, cache, serr, store⟩ := st
  cases ce <;> cases cerr <;>
    cases hc : lookupKV cache datasetId <;>
    cases hs : lookupKV store datasetId <;>
    simp [DatasetNodeExists, cacheDatasetNodeExists, cacheHitB, hk,
      dbDatasetNodeExists, dbSelectDatasetNode, hc, hs, lookupKV_upsert_self]

/-- A lookup-service state in which the cache is reachable but empty while the
store holds d1, forcing the fallthrough-and-repair path. -/
def fallthroughState : LookupState :=
  { cacheEnabled := true
    cacheErr := false
    cache := []
    storeErr := false
    store := [("d1", nodeN)] }

/-- C5 witness: at `fallthroughState` the cache misses, the store hit is
returned and the cache entry for d1 is repopulated with the store's node. -/
theorem datasetNodeExists_cache_fallthrough_witness :
    lookupKV (DatasetNodeExists fallthroughState "d1").2.cache "d1"
      = dbSelectDatasetNode fallthroughState "d1" :=
  (datasetNodeExists_cache_fallthrough fallthroughState "d1" (by decide)).2.2
    rfl rfl rfl rfl

/-- C6: InsertDatasetNode returns success exactly when the authoritative
persistent-store write succeeds, and whenever the store write succeeds the
entry lands in the store — whatever the cache tier did (reachable, failing, or
absent), a cache failure neither surfaces nor prevents the store write. -/
theorem insertDatasetNode_store_authoritative (st : LookupState) (datasetId : String)
    (node : PBNode) :
    ((InsertDatasetNode st datasetId node).1 = none ↔ st.storeErr = false) ∧
    (st.storeErr = false →
      lookupKV (InsertDatasetNode st datasetId node).2.store datasetId = some node) := by
  obtain ⟨ce, cerr, cache, serr, store⟩ := st
  cases ce <;> cases cerr <;> cases serr <;>
    simp [InsertDatasetNode, cacheInsertDatasetNode, dbInsertDatasetNode,
      lookupKV_upsert_self]

/-- A lookup-service state whose cache is reachable but failing while the
store works. -/
def failingCacheState : LookupState :=
  { cacheEnabled := true
    cacheErr := true
    cache := []
    storeErr := false
    store := [] }

/-- C6 witness: with the cache write failing, the insert still reaches the
store and the entry is durably recorded. -/
theorem insertDatasetNode_store_authoritative_witness :
    lookupKV (InsertDatasetNode failingCacheState "d1" nodeN).2.store "d1" = some nodeN :=
  (insertDatasetNode_store_authoritative failingCacheState "d1" nodeN).2 rfl

/-- C7: when the connection works and the key is absent (the DELETE affects
zero rows), dbDeleteNetworkNode reports the could-not-delete error rather than
silently succeeding. -/
theorem dbDeleteNetworkNode_zero_rows_error (db : MembershipDB) (nodeId : String)
    (hid : nodeId ≠ "") (he : db.execErr = false)
    (h0 : (rowsForName db.rows nodeId).length = 0) :
    (dbDeleteNetworkNode db nodeId).1 = some CoreErr.deleteFailed := by
  simp [dbDeleteNetworkNode, hid, he, h0]

/-- C7 witness: deleting n1 from an empty, healthy membership table yields the
could-not-delete error. -/
theorem dbDeleteNetworkNode_zero_rows_error_witness :
    (dbDeleteNetworkNode { rows := [], execErr := false } "n1").1
      = some CoreErr.deleteFailed :=
  dbDeleteNetworkNode_zero_rows_error { rows := [], execErr := false } "n1"
    (by decide) rfl rfl

/-- Every invocation of applyPolicy appends its argument to the ghost log,
whether or not it reports an error. -/
theorem applyPolicy_snd_calls (st : DirectoryState) (p : Option Policy) :
    (applyPolicy st p).2.applyPolicyCalls = st.applyPolicyCalls ++ [p] := by
  cases p <;> simp [applyPolicy]

/-- The batch loop invokes applyPolicy once per entry, in order, regardless of
individual failures. -/
theorem applyPolicies_calls (body : List GossipMessageBodyEntry) :
    ∀ st : DirectoryState,
      (applyPolicies st body).applyPolicyCalls
        = st.applyPolicyCalls ++ body.map (fun e => e.policy) := by
  induction body with
  | nil => intro st; simp [applyPolicies]
  | cons e rest ih =>
    intro st
    simp [applyPolicies, ih, applyPolicy_snd_calls]

/-- C8: for every gossip policy batch, processPolicyBatch passes every
contained policy of the body to applyPolicy, in order; a non-nil error from
applyPolicy on one entry (such as a nil policy) is logged without aborting the
loop, so every remaining entry is still applied. -/
theorem processPolicyBatch_applies_all (st : DirectoryState) (msg : Message)
    (g : GossipMessage) (body : List GossipMessageBodyEntry)
    (hg : msg.gossipMessage = some g) (hb : g.gossipMessageBody = some body) :
    (processPolicyBatch st (some msg)).2.applyPolicyCalls
      = st.applyPolicyCalls ++ body.map (fun e => e.policy) := by
  simp [processPolicyBatch, hg, hb, applyPolicies_calls]

/-- A gossip batch whose first entry carries a nil policy (applyPolicy errors
on it) and whose second entry carries `policyA`. -/
def mixedGossip : GossipMessage :=
  { gossipMessageID := "g2"
    gossipMessageBody := some [{ policy := none }, { policy := some policyA }] }

/-- The POLICY_STORE_UPDATE envelope carrying `mixedGossip`. -/
def mixedPolicyMsg : Message :=
  { type := MsgType.policyStoreUpdate
    sender := some nodeN
    stringValue := ""
    stringSlice := none
    gossipMessage := some mixedGossip
    signature := some { r := "r3", s := "s3" }
    sigValid := true }

/-- C8 witness: in a batch whose first entry fails (nil policy), the second
entry is still passed to applyPolicy. -/
theorem processPolicyBatch_applies_all_witness :
    (processPolicyBatch emptyDirState (some mixedPolicyMsg)).2.applyPolicyCalls
      = [none, some policyA] := by
  simpa using processPolicyBatch_applies_all emptyDirState mixedPolicyMsg mixedGossip
    [{ policy := none }, { policy := some policyA }] rfl rfl

/-- rowsForName distributes over table concatenation. -/
theorem rowsForName_append (l1 l2 : List NodeRow) (name : String) :
    rowsForName (l1 ++ l2) name = rowsForName l1 name ++ rowsForName l2 name := by
  induction l1 with
  | nil => simp [rowsForName]
  | cons y ys ih =>
    by_cases hy : y.nodeName = name
    · simp [rowsForName, hy, ih]
    · simp [rowsForName, hy, ih]

/-- A table with no row of the given name yields an empty result set. -/
theorem rowsForName_of_hasName_false (rows : List NodeRow) (name : String)
    (h : hasName rows name = false) :
    rowsForName rows name = [] := by
  induction rows with
  | nil => simp [rowsForName]
  | cons y ys ih =>
    by_cases hy : y.nodeName = name
    · simp [hasName, hy] at h
    · simp [hasName, hy] at h
      simp [rowsForName, hy, ih h]

/-- A table with some row of the given name yields a non-empty result set. -/
theorem rowsForName_of_hasName_true (rows : List NodeRow) (name : String)
    (h : hasName rows name = true) :
    rowsForName rows name ≠ [] := by
  induction rows with
  | nil => simp [hasName] at h
  | cons y ys ih =>
    by_cases hy : y.nodeName = name
    · simp [rowsForName, hy]
    · simp [hasName, hy] at h
      simp [rowsForName, hy, ih h]

/-- The conflict-update pass leaves no matching row when none matched. -/
theorem rowsForName_map_replace_zero (rows : List NodeRow) (r : NodeRow)
    (h : rowsForName rows r.nodeName = []) :
    rowsForName (rows.map (fun x => if x.nodeName = r.nodeName then r else x))
      r.nodeName = [] := by
  induction rows with
  | nil => simp [rowsForName]
  | cons y ys ih =>
    by_cases hy : y.nodeName = r.nodeName
    · simp [rowsForName, hy] at h
    · simp [rowsForName, hy] at h
      simp [rowsForName, hy, ih h]

/-- The conflict-update pass rewrites the single matching row to the upserted
values. -/
theorem rowsForName_map_replace_one (rows : List NodeRow) (r x0 : NodeRow)
    (h : rowsForName rows r.nodeName = [x0]) :
    rowsForName (rows.map (fun x => if x.nodeName = r.nodeName then r else x))
      r.nodeName = [r] := by
  induction rows with
  | nil => simp [rowsForName] at h
  | cons y ys ih =>
    by_cases hy : y.nodeName = r.nodeName
    · simp [rowsForName, hy] at h
      simp [rowsForName, hy, rowsForName_map_replace_zero ys r h.2]
    · simp [rowsForName, hy] at h
      simp [rowsForName, hy, ih h]

/-- Under the node_name uniqueness invariant (at most one matching row), the
ON CONFLICT upsert leaves exactly one row for the key: the upserted one. -/
theorem rowsForName_upsertRow (rows : List NodeRow) (r : NodeRow)
    (h : (rowsForName rows r.nodeName).length ≤ 1) :
    rowsForName (upsertRow rows r) r.nodeName = [r] := by
  unfold upsertRow
  by_cases hname : hasName rows r.nodeName = true
  · simp only [hname, if_true]
    have hne := rowsForName_of_hasName_true rows r.nodeName hname
    match hres : rowsForName rows r.nodeName with
    | [] => exact absurd hres hne
    | [x0] => exact rowsForName_map_replace_one rows r x0 hres
    | x0 :: x1 :: rest =>
      rw [hres] at h
      simp at h
  · rw [Bool.not_eq_true] at hname
    simp only [hname, Bool.false_eq_true, if_false]
    rw [rowsForName_append]
    have hr : r.nodeName = r.nodeName := rfl
    simp [rowsForName_of_hasName_false rows r.nodeName hname, rowsForName, hr]

/-- For a non-nil node with a non-empty name and a healthy connection,
Handshake registers the node by upserting its row. -/
theorem handshake_state (cfg : DirConfig) (db : MembershipDB) (n : PBNode)
    (hn : n.name ≠ "") (he : db.execErr = false) :
    (Handshake cfg db (some n)).2
      = { db with rows := upsertRow db.rows (nodeRowOf n.name n) } := by
  simp [Handshake, AddNetworkNode, dbInsertNetworkNode, hn, he]

/-- C9: calling Handshake twice with two node records bearing the same
non-empty name, against a healthy store whose table satisfies the name
uniqueness invariant, leaves exactly one membership row for that name and its
columns (address, public identity, HTTPS address, port, boot time) are those
of the second record: an upsert, never a duplicate. -/
theorem handshake_upsert_idempotent (cfg : DirConfig) (db : MembershipDB)
    (n1 n2 : PBNode) (h1 : n1.name ≠ "") (h2 : n2.name = n1.name)
    (he : db.execErr = false)
    (hu : (rowsForName db.rows n1.name).length ≤ 1) :
    rowsForName ((Handshake cfg (Handshake cfg db (some n1)).2 (some n2)).2).rows
      n1.name = [nodeRowOf n2.name n2] := by
  have h2n : n2.name ≠ "" := by rw [h2]; exact h1
  rw [handshake_state cfg db n1 h1 he]
  have he2 : ({ db with rows := upsertRow db.rows (nodeRowOf n1.name n1) } :
      MembershipDB).execErr = false := he
  rw [handshake_state cfg _ n2 h2n he2]
  rw [← h2] at hu ⊢
  have hu1 : (rowsForName (upsertRow db.rows (nodeRowOf n2.name n1))
      (nodeRowOf n2.name n1).nodeName).length ≤ 1 := by
    rw [rowsForName_upsertRow db.rows (nodeRowOf n2.name n1) hu]
    exact Nat.le_refl 1
  exact rowsForName_upsertRow (upsertRow db.rows (nodeRowOf n2.name n1))
    (nodeRowOf n2.name n2) hu1

/-- A second record for N with changed address, identity, port and boot
time. -/
def nodeNv2 : PBNode :=
  { name := "N"
    ifritAddress := "10.0.0.8:5001"
    id := "idN2"
    httpsAddress := "10.0.0.8:443"
    port := 8443
    bootTime := 200 }

/-- C9 witness: handshaking N and then N again with updated fields against an
empty healthy table leaves exactly the single row built from the second
record. -/
theorem handshake_upsert_idempotent_witness :
    rowsForName ((Handshake { hostname := "ds", ifritTCPPort := 5000, serverId := "dsId" }
        (Handshake { hostname := "ds", ifritTCPPort := 5000, serverId := "dsId" }
          { rows := [], execErr := false } (some nodeN)).2
        (some nodeNv2)).2).rows
      nodeN.name = [nodeRowOf nodeNv2.name nodeNv2] :=
  handshake_upsert_idempotent { hostname := "ds", ifritTCPPort := 5000, serverId := "dsId" }
    { rows := [], execErr := false } nodeN nodeNv2 (by decide) rfl rfl (by decide)

end Lohpi
